import Mathlib

/-!
Shallow embedding of `spotify_manager/spotify_manager.py` (class `SpotifyManager`).

The remote Spotipy client `self.sp` is modelled as an explicit environment:
each upstream call either succeeds (`none` / `Except.ok data`) or raises a
`SpotifyException` carrying an HTTP status and a message.  Every facade method
is embedded as a pure function returning the Python outcome (`Except Err α`)
together with the ordered list of upstream calls it issued (a call that raised
was still issued, so it appears in the trace).
-/

namespace SpotifyManager

/-- Embeds `spotipy.client.SpotifyException`: the fault raised by the remote client,
carrying `http_status` and `msg`. -/
structure SpotifyException where
  http_status : Int
  msg : String
  deriving DecidableEq, Repr

/-- The Python-level error outcomes of the facade methods:
a re-raised `SpotifyException`, a `ConnectionError(msg)`, or a `TypeError(msg)`
(the code's realization of the spec's InvalidArgument condition). -/
inductive Err where
  | spotify (se : SpotifyException)
  | connection (msg : String)
  | typeError (msg : String)
  deriving DecidableEq, Repr

/-- One upstream call through `self.sp`, with its payload. -/
inductive Call where
  | volume (volume_percent : Int) (device_id : Option String)
  | startPlayback (device_id : Option String)
  | startPlaybackUris (uris : List String) (device_id : Option String)
  | pausePlayback (device_id : Option String)
  | nextTrack (device_id : Option String)
  | previousTrack (device_id : Option String)
  | seekTrack (position_ms : Int) (device_id : Option String)
  | setRepeat (state : String) (device_id : Option String)
  | shuffle (state : Bool) (device_id : Option String)
  | currentUserTopTracks (limit : Int)
  | currentUserTopArtists (limit : Int)
  | currentUserRecentlyPlayed (limit : Int)
  | artistTopTracks (artist_uri : String)
  deriving DecidableEq, Repr

/-- The `ConnectionError` message shared by the playback methods. -/
def noDevMsg : String := "There is no active device or device_id is not valid."

/-- Python `'sub' in s` (substring containment), on char lists. -/
def startsWithChars : List Char → List Char → Bool
  | [], _ => true
  | _ :: _, [] => false
  | a :: as, b :: bs => a == b && startsWithChars as bs

/-- Substring search over char lists: does `sub` occur in the list? -/
def containsChars (sub : List Char) : List Char → Bool
  | [] => startsWithChars sub []
  | b :: bs => startsWithChars sub (b :: bs) || containsChars sub bs

/-- Python `sub in s` for strings. -/
def strContains (s sub : String) : Bool :=
  containsChars sub.data s.data

/-- A device entry of the `sp.devices()['devices']` roster (the fields the
facade reads). -/
structure Device where
  id : String
  is_active : Bool
  volume_percent : Int
  deriving DecidableEq, Repr

/-- Embeds `SpotifyManager._get_active_device`: first roster entry with
`is_active`, else `ConnectionError('There is no active device')`. -/
def _get_active_device (devices : List Device) : Except Err Device :=
  match devices.find? (fun dev => dev.is_active) with
  | some dev => .ok dev
  | none => .error (.connection "There is no active device")

/-- Embeds `SpotifyManager._get_device`: first roster entry whose id matches, else
`ConnectionError('There is no active device that match target ID')`. -/
def _get_device (devices : List Device) (device_id : String) : Except Err Device :=
  match devices.find? (fun dev => dev.id == device_id) with
  | some dev => .ok dev
  | none => .error (.connection "There is no active device that match target ID")

/-- Embeds `SpotifyManager.get_volume`: resolve the target device (Python truthiness:
`if device_id:` is false for `None` and for the empty string) and return its
`volume_percent`. -/
def get_volume (devices : List Device) (device_id : Option String) : Except Err Int :=
  match device_id with
  | some did =>
      if did == "" then (_get_active_device devices).map (fun dev => dev.volume_percent)
      else (_get_device devices did).map (fun dev => dev.volume_percent)
  | none => (_get_active_device devices).map (fun dev => dev.volume_percent)

/-- Embeds `SpotifyManager.set_volume`: clamp `volume_percent` into [0,100], then issue
`sp.volume(clamped, device_id)`; a raised `SpotifyException` with status 403 is
translated to `ConnectionError(noDevMsg)`, any other is re-raised.  The
`isinstance(volume_percent, int)` guard is vacuous here since the input type is
`Int`.  `volEnv` gives the remote outcome of a `sp.volume` call. -/
def set_volume (volEnv : Int → Option String → Option SpotifyException)
    (volume_percent : Int) (device_id : Option String) :
    Except Err Unit × List Call :=
  let v := if volume_percent > 100 then 100
           else if volume_percent < 0 then 0
           else volume_percent
  match volEnv v device_id with
  | none => (.ok (), [.volume v device_id])
  | some se =>
      if se.http_status == 403 then
        (.error (.connection noDevMsg), [.volume v device_id])
      else
        (.error (.spotify se), [.volume v device_id])

/-- Embeds `SpotifyManager.increase_volume`: read the current volume, add the delta,
clamp into [0,100], delegate to `set_volume`. -/
def increase_volume (devices : List Device)
    (volEnv : Int → Option String → Option SpotifyException)
    (volume_percent : Int) (device_id : Option String) :
    Except Err Unit × List Call :=
  match get_volume devices device_id with
  | .error e => (.error e, [])
  | .ok cur =>
      let volume := cur + volume_percent
      let volume := if volume > 100 then 100
                    else if volume < 0 then 0
                    else volume
      set_volume volEnv volume device_id

/-- Embeds `SpotifyManager.decrease_volume`: delegates to `increase_volume` with the
negated delta. -/
def decrease_volume (devices : List Device)
    (volEnv : Int → Option String → Option SpotifyException)
    (volume_percent : Int) (device_id : Option String) :
    Except Err Unit × List Call :=
  increase_volume devices volEnv (-volume_percent) device_id

/-- Predicate: an upstream call is a volume call only with payload in [0,100]. -/
def volPayloadOk : Call → Bool
  | .volume p _ => 0 ≤ p && p ≤ 100
  | _ => true

/-- Embeds `SpotifyManager.play`: `sp.start_playback(device_id)`; a raised fault with
status 404, or status 403 with `'Forbidden' in msg`, becomes
`ConnectionError(noDevMsg)`; anything else is re-raised.  `playRes` is the
remote outcome of the `start_playback` call. -/
def play (playRes : Option SpotifyException) (device_id : Option String) :
    Except Err Unit × List Call :=
  match playRes with
  | none => (.ok (), [.startPlayback device_id])
  | some se =>
      if se.http_status == 404 then
        (.error (.connection noDevMsg), [.startPlayback device_id])
      else if se.http_status == 403 && strContains se.msg "Forbidden" then
        (.error (.connection noDevMsg), [.startPlayback device_id])
      else
        (.error (.spotify se), [.startPlayback device_id])

/-- Embeds `SpotifyManager.pause`: `sp.pause_playback(device_id)` with the same fault
translation as `play`. -/
def pause (pauseRes : Option SpotifyException) (device_id : Option String) :
    Except Err Unit × List Call :=
  match pauseRes with
  | none => (.ok (), [.pausePlayback device_id])
  | some se =>
      if se.http_status == 404 then
        (.error (.connection noDevMsg), [.pausePlayback device_id])
      else if se.http_status == 403 && strContains se.msg "Forbidden" then
        (.error (.connection noDevMsg), [.pausePlayback device_id])
      else
        (.error (.spotify se), [.pausePlayback device_id])

/-- Embeds `SpotifyManager.switch_play_pause`: try `sp.start_playback(device_id)`; on a
403 fault whose message lacks `'Forbidden'` (already playing) issue
`sp.pause_playback(device_id)` directly; on 403-with-'Forbidden' or 404 raise
`ConnectionError(noDevMsg)`; otherwise re-raise.  A fault from the inner
`pause_playback` call is uncaught and propagates. -/
def switch_play_pause (playRes pauseRes : Option SpotifyException)
    (device_id : Option String) : Except Err Unit × List Call :=
  match playRes with
  | none => (.ok (), [.startPlayback device_id])
  | some se =>
      if se.http_status == 403 then
        if !(strContains se.msg "Forbidden") then
          match pauseRes with
          | none => (.ok (), [.startPlayback device_id, .pausePlayback device_id])
          | some se2 =>
              (.error (.spotify se2), [.startPlayback device_id, .pausePlayback device_id])
        else
          (.error (.connection noDevMsg), [.startPlayback device_id])
      else if se.http_status == 404 then
        (.error (.connection noDevMsg), [.startPlayback device_id])
      else
        (.error (.spotify se), [.startPlayback device_id])

/-- Embeds `SpotifyManager.next_song`: `sp.next_track(device_id)`; a fault with status
404 or 403 becomes `ConnectionError(noDevMsg)`; anything else is re-raised. -/
def next_song (nextRes : Option SpotifyException) (device_id : Option String) :
    Except Err Unit × List Call :=
  match nextRes with
  | none => (.ok (), [.nextTrack device_id])
  | some se =>
      if se.http_status == 404 || se.http_status == 403 then
        (.error (.connection noDevMsg), [.nextTrack device_id])
      else
        (.error (.spotify se), [.nextTrack device_id])

/-- Embeds `SpotifyManager.restart_song`: `sp.seek_track(0, device_id)`; a fault with
status 404 or 403 becomes `ConnectionError(noDevMsg)`; anything else is
re-raised. -/
def restart_song (seekRes : Option SpotifyException) (device_id : Option String) :
    Except Err Unit × List Call :=
  match seekRes with
  | none => (.ok (), [.seekTrack 0 device_id])
  | some se =>
      if se.http_status == 404 || se.http_status == 403 then
        (.error (.connection noDevMsg), [.seekTrack 0 device_id])
      else
        (.error (.spotify se), [.seekTrack 0 device_id])

/-- Embeds `SpotifyManager.previous_song`: if `restart_time != 0` and the current
progress (seconds) exceeds it, restart instead; otherwise try
`sp.previous_track(device_id)`; on a 403 fault whose message lacks
`'Forbidden'` (no previous track) fall back to `restart_song`; on
403-with-'Forbidden' or 404 raise `ConnectionError(noDevMsg)`; otherwise
re-raise.  Python's float comparison `progress_ms/1000 > restart_time` is
modelled as the exact integer comparison `progress_ms > restart_time * 1000`;
the `isinstance(restart_time, int)` guard is vacuous with an `Int` input. -/
def previous_song (prevRes seekRes : Option SpotifyException)
    (restart_time : Int) (progress_ms : Int) (device_id : Option String) :
    Except Err Unit × List Call :=
  if restart_time ≠ 0 ∧ progress_ms > restart_time * 1000 then
    restart_song seekRes device_id
  else
    match prevRes with
    | none => (.ok (), [.previousTrack device_id])
    | some se =>
        if se.http_status == 403 then
          if !(strContains se.msg "Forbidden") then
            let res := restart_song seekRes device_id
            (res.1, .previousTrack device_id :: res.2)
          else
            (.error (.connection noDevMsg), [.previousTrack device_id])
        else if se.http_status == 404 then
          (.error (.connection noDevMsg), [.previousTrack device_id])
        else
          (.error (.spotify se), [.previousTrack device_id])

/-- Embeds `SpotifyManager.set_repeat_state`: reject a value outside
`['track', 'context', 'off']` with a `TypeError` before any remote call, then
issue `sp.repeat(repeat_state, device_id)`; a 404 fault becomes
`ConnectionError(noDevMsg)`, anything else is re-raised. -/
def set_repeat_state (repEnv : Option SpotifyException)
    (repeat_state : String) (device_id : Option String) :
    Except Err Unit × List Call :=
  if repeat_state ∉ ["track", "context", "off"] then
    (.error (.typeError "repeat_state must be 'track', 'context' or 'off'."), [])
  else
    match repEnv with
    | none => (.ok (), [.setRepeat repeat_state device_id])
    | some se =>
        if se.http_status == 404 then
          (.error (.connection noDevMsg), [.setRepeat repeat_state device_id])
        else
          (.error (.spotify se), [.setRepeat repeat_state device_id])

/-- The if/elif/else chain of `SpotifyManager.next_repeat_state`:
`'track' -> 'context' -> 'off' -> 'track'`, any other value maps to
`'track'`. -/
def nextRepeatOf (repeat_state : String) : String :=
  if repeat_state == "track" then "context"
  else if repeat_state == "context" then "off"
  else "track"

/-- Embeds `SpotifyManager.get_repeat_state`: read `current_playback()['repeat_state']`;
subscripting a `None` playback raises `TypeError`, translated to
`ConnectionError('User is not connected to Spotify.')`.  `playback` is the
`repeat_state` field of the remote response, absent when the response is
`None`. -/
def get_repeat_state (playback : Option String) : Except Err String :=
  match playback with
  | none => .error (.connection "User is not connected to Spotify.")
  | some rs => .ok rs

/-- Embeds `SpotifyManager.next_repeat_state`: read the repeat state, step it through
the if/elif/else chain (`nextRepeatOf`), and set the result. -/
def next_repeat_state (playback : Option String)
    (repEnv : Option SpotifyException) (device_id : Option String) :
    Except Err Unit × List Call :=
  match get_repeat_state playback with
  | .error e => (.error e, [])
  | .ok repeat_state => set_repeat_state repEnv (nextRepeatOf repeat_state) device_id

/-- Embeds `SpotifyManager.set_shuffle_state`: the `shuffle_state not in [True, False]`
guard is vacuous with a `Bool` input; issue `sp.shuffle(shuffle_state,
device_id)`; a 404 fault becomes `ConnectionError(noDevMsg)`, anything else is
re-raised. -/
def set_shuffle_state (shEnv : Option SpotifyException)
    (shuffle_state : Bool) (device_id : Option String) :
    Except Err Unit × List Call :=
  match shEnv with
  | none => (.ok (), [.shuffle shuffle_state device_id])
  | some se =>
      if se.http_status == 404 then
        (.error (.connection noDevMsg), [.shuffle shuffle_state device_id])
      else
        (.error (.spotify se), [.shuffle shuffle_state device_id])

/-- An artist entry of a track response (the field the facade reads). -/
structure Artist where
  name : String
  deriving DecidableEq, Repr

/-- The `item` of `sp.currently_playing()` (the fields the facade reads). -/
structure SongItem where
  artists : List Artist
  uri : String
  deriving DecidableEq, Repr

/-- Embeds `SpotifyManager.get_current_song_info`: return
`sp.currently_playing()['item']`, or `ConnectionError` when the playback
status is falsy.  `status` is the remote response's `item`, absent when the
response is falsy. -/
def get_current_song_info (status : Option SongItem) : Except Err SongItem :=
  match status with
  | none => .error (.connection "User not connected to Spotify ")
  | some item => .ok item

/-- Embeds `SpotifyManager.get_current_song_artist`: concatenate
`artist['name'] + ', '` over the item's artists, then drop the last two
characters (Python `artists_string[:-2]`, modelled character-exactly by
`pyDropLast2`). -/
def pyDropLast2 (s : String) : String :=
  ⟨s.data.dropLast.dropLast⟩

/-- The artist-joining loop and final slice of
`SpotifyManager.get_current_song_artist`. -/
def get_current_song_artist (status : Option SongItem) : Except Err String :=
  (get_current_song_info status).map fun item =>
    pyDropLast2 (item.artists.foldl (fun acc artist => acc ++ artist.name ++ ", ") "")

/-- The spec's description of the artist string: all names joined by `", "`
with no trailing separator. -/
def joinCommaSpace : List String → String
  | [] => ""
  | [n] => n
  | n :: rest => n ++ ", " ++ joinCommaSpace rest

/-- A track entry of a tracks/items response (the field the radio operations
read). -/
structure TrackItem where
  uri : String
  deriving DecidableEq, Repr

/-- A play-history entry of `current_user_recently_played` (nested `track`). -/
structure PlayHistoryItem where
  track : TrackItem
  deriving DecidableEq, Repr

/-- An artist entry of `current_user_top_artists` (the field read). -/
structure ArtistItem where
  uri : String
  deriving DecidableEq, Repr

/-- The `except SpotifyException` clause shared by the radio operations:
a 404 fault becomes `ConnectionError('device_id is not valid.')`, anything
else is re-raised. -/
def radioHandle (se : SpotifyException) : Err :=
  if se.http_status == 404 then .connection "device_id is not valid." else .spotify se

/-- The remote responses a radio operation may consume: each read either
returns its items or raises, and the final `start_playback` / `shuffle`
calls either succeed or raise. -/
structure RadioEnv where
  recentlyPlayed : Except SpotifyException (List PlayHistoryItem)
  topTracks : Except SpotifyException (List TrackItem)
  topArtists : Except SpotifyException (List ArtistItem)
  artistTop : String → Except SpotifyException (List TrackItem)
  playRes : Option SpotifyException
  shuffleRes : Option SpotifyException

/-- Embeds `SpotifyManager.play_recently_played`: gather the uris of
`current_user_recently_played(limit)['items']` (each nested under `track`),
then `sp.start_playback(uris=uris, device_id=device_id)`. -/
def play_recently_played (env : RadioEnv) (limit : Int) (device_id : Option String) :
    Except Err Unit × List Call :=
  match env.recentlyPlayed with
  | .error se => (.error (radioHandle se), [.currentUserRecentlyPlayed limit])
  | .ok items =>
      let uris := items.map fun track => track.track.uri
      match env.playRes with
      | none =>
          (.ok (), [.currentUserRecentlyPlayed limit, .startPlaybackUris uris device_id])
      | some se =>
          (.error (radioHandle se),
            [.currentUserRecentlyPlayed limit, .startPlaybackUris uris device_id])

/-- Embeds `SpotifyManager.play_top_tracks`: gather the uris of
`current_user_top_tracks(limit)['items']`, then
`sp.start_playback(uris=uris, device_id=device_id)`. -/
def play_top_tracks (env : RadioEnv) (limit : Int) (device_id : Option String) :
    Except Err Unit × List Call :=
  match env.topTracks with
  | .error se => (.error (radioHandle se), [.currentUserTopTracks limit])
  | .ok items =>
      let uris := items.map fun track => track.uri
      match env.playRes with
      | none =>
          (.ok (), [.currentUserTopTracks limit, .startPlaybackUris uris device_id])
      | some se =>
          (.error (radioHandle se),
            [.currentUserTopTracks limit, .startPlaybackUris uris device_id])

/-- The nested gather loop of `SpotifyManager.play_top_artists`: for each top
artist, fetch `artist_top_tracks(artist['uri'])['tracks']` and append every
track's uri; a raised fault aborts the loop. -/
def gatherTopArtistTracks (artistTop : String → Except SpotifyException (List TrackItem)) :
    List ArtistItem → Except SpotifyException (List String) × List Call
  | [] => (.ok [], [])
  | artist :: rest =>
      match artistTop artist.uri with
      | .error se => (.error se, [.artistTopTracks artist.uri])
      | .ok tracks =>
          let res := gatherTopArtistTracks artistTop rest
          match res.1 with
          | .error se => (.error se, .artistTopTracks artist.uri :: res.2)
          | .ok uris =>
              (.ok ((tracks.map fun track => track.uri) ++ uris),
                .artistTopTracks artist.uri :: res.2)

/-- Embeds `SpotifyManager.play_top_artists`: gather top-track uris over
`current_user_top_artists(limit)['items']`, `sp.start_playback(uris=uris,
device_id=device_id)`, then `set_shuffle_state(True)` (with no device).  A
`ConnectionError` raised inside `set_shuffle_state` is not a
`SpotifyException`, so it escapes the `except` clause unchanged; a
`SpotifyException` re-raised by it is caught and handled by `radioHandle`. -/
def play_top_artists (env : RadioEnv) (limit : Int) (device_id : Option String) :
    Except Err Unit × List Call :=
  match env.topArtists with
  | .error se => (.error (radioHandle se), [.currentUserTopArtists limit])
  | .ok artists =>
      let gather := gatherTopArtistTracks env.artistTop artists
      match gather.1 with
      | .error se => (.error (radioHandle se), .currentUserTopArtists limit :: gather.2)
      | .ok uris =>
          match env.playRes with
          | some se =>
              (.error (radioHandle se),
                .currentUserTopArtists limit :: gather.2
                  ++ [.startPlaybackUris uris device_id])
          | none =>
              let sh := set_shuffle_state env.shuffleRes true none
              let calls := .currentUserTopArtists limit :: gather.2
                ++ [.startPlaybackUris uris device_id] ++ sh.2
              match sh.1 with
              | .ok _ => (.ok (), calls)
              | .error (.spotify se) => (.error (radioHandle se), calls)
              | .error e => (.error e, calls)

/-- Predicate: the call is a `pause_playback` call. -/
def isPauseCall : Call → Bool
  | .pausePlayback _ => true
  | _ => false

/-- Predicate: the call is a `start_playback(uris=...)` call. -/
def isPlayUrisCall : Call → Bool
  | .startPlaybackUris _ _ => true
  | _ => false

/-- Predicate: the call is a `sp.shuffle` call. -/
def isShuffleCall : Call → Bool
  | .shuffle _ _ => true
  | _ => false

/-- Predicate: the call is an `artist_top_tracks` call. -/
def isArtistTopCall : Call → Bool
  | .artistTopTracks _ => true
  | _ => false

/-! ## Helper lemmas -/

theorem ifClamp_eq (v : Int) :
    (if v > 100 then (100 : Int) else if v < 0 then 0 else v) = min 100 (max 0 v) := by
  split
  · omega
  · split <;> omega

theorem set_volume_trace (volEnv : Int → Option String → Option SpotifyException)
    (v : Int) (d : Option String) :
    (set_volume volEnv v d).2 = [Call.volume (min 100 (max 0 v)) d] := by
  simp only [set_volume, ifClamp_eq]
  cases hv : volEnv (min 100 (max 0 v)) d <;> simp only [hv]
  split <;> rfl

theorem set_volume_ok (volEnv : Int → Option String → Option SpotifyException)
    (v : Int) (d : Option String) (h : volEnv (min 100 (max 0 v)) d = none) :
    (set_volume volEnv v d).1 = Except.ok () := by
  simp only [set_volume, ifClamp_eq, h]

theorem increase_volume_eq (devices : List Device)
    (volEnv : Int → Option String → Option SpotifyException)
    (delta : Int) (d : Option String) (c : Int)
    (hc : get_volume devices d = Except.ok c) :
    increase_volume devices volEnv delta d =
      set_volume volEnv (min 100 (max 0 (c + delta))) d := by
  simp only [increase_volume, hc, ifClamp_eq]

/-! ## Claim theorems -/

/-- C1 (counterexample): for the out-of-range input 150, `set_volume` raises no
InvalidArgument error and does issue an upstream volume call — the input is
clamped to 100 and sent. -/
theorem set_volume_out_of_range_clamps_not_raises :
    (set_volume (fun _ _ => none) 150 none).1 = Except.ok () ∧
    (set_volume (fun _ _ => none) 150 none).2 = [Call.volume 100 none] :=
  ⟨rfl, rfl⟩

/-- C1 (amended): for every integer volume input `v`, `set_volume(v)` raises no
range error: it issues exactly one upstream volume call carrying
`min 100 (max 0 v)` (succeeding when that call succeeds), and for `v` in
[0,100] the carried value is `v` unchanged. -/
theorem set_volume_clamps_and_calls_once
    (volEnv : Int → Option String → Option SpotifyException)
    (v : Int) (d : Option String) :
    (set_volume volEnv v d).2 = [Call.volume (min 100 (max 0 v)) d] ∧
    (volEnv (min 100 (max 0 v)) d = none → (set_volume volEnv v d).1 = Except.ok ()) ∧
    (0 ≤ v → v ≤ 100 → min 100 (max 0 v) = v) :=
  ⟨set_volume_trace volEnv v d, set_volume_ok volEnv v d, fun h1 h2 => by omega⟩

/-- C1 (witness): the amended claim applied at `v = 150` and `v = 42`. -/
theorem set_volume_clamps_and_calls_once_witness :
    (set_volume (fun _ _ => none) 150 none).1 = Except.ok () ∧
    (0 : Int) ≤ 42 ∧ (42 : Int) ≤ 100 ∧
    min 100 (max 0 (42 : Int)) = 42 :=
  ⟨(set_volume_clamps_and_calls_once (fun _ _ => none) 150 none).2.1 rfl,
   by decide, by decide,
   (set_volume_clamps_and_calls_once (fun _ _ => none) 42 none).2.2 (by decide) (by decide)⟩

/-- C3: when the resolved current volume is `c`, `increase_volume delta` results
in exactly one upstream volume call carrying `min 100 (max 0 (c + delta))`, and
over- or under-shoot saturates silently (no error) when the call succeeds. -/
theorem increase_volume_clamped_single_call (devices : List Device)
    (volEnv : Int → Option String → Option SpotifyException)
    (c delta : Int) (d : Option String)
    (hc : get_volume devices d = Except.ok c) (h0 : 0 ≤ c) (h100 : c ≤ 100) :
    (increase_volume devices volEnv delta d).2 =
      [Call.volume (min 100 (max 0 (c + delta))) d] ∧
    (volEnv (min 100 (max 0 (c + delta))) d = none →
      (increase_volume devices volEnv delta d).1 = Except.ok ()) := by
  have key : min 100 (max 0 (min 100 (max 0 (c + delta)))) = min 100 (max 0 (c + delta)) := by
    omega
  rw [increase_volume_eq devices volEnv delta d c hc]
  refine ⟨?_, fun h => ?_⟩
  · rw [set_volume_trace, key]
  · exact set_volume_ok _ _ _ (by rw [key]; exact h)

/-- C3 (witness): an active device at volume 60 and `delta = 50`: one upstream
call carrying 100, no error. -/
theorem increase_volume_clamped_single_call_witness :
    get_volume [⟨"d1", true, 60⟩] none = Except.ok 60 ∧
    (0 : Int) ≤ 60 ∧ (60 : Int) ≤ 100 ∧
    (increase_volume [⟨"d1", true, 60⟩] (fun _ _ => none) 50 none).2 =
      [Call.volume (min 100 (max 0 (60 + 50))) none] ∧
    (increase_volume [⟨"d1", true, 60⟩] (fun _ _ => none) 50 none).1 = Except.ok () :=
  ⟨rfl, by decide, by decide,
   (increase_volume_clamped_single_call [⟨"d1", true, 60⟩] (fun _ _ => none)
      60 50 none rfl (by decide) (by decide)).1,
   (increase_volume_clamped_single_call [⟨"d1", true, 60⟩] (fun _ _ => none)
      60 50 none rfl (by decide) (by decide)).2 rfl⟩

/-- C7: every volume value sent upstream — by `set_volume` directly, or by
`increase_volume` / `decrease_volume` delegating to it — lies in [0,100]. -/
theorem volume_sent_upstream_in_range (devices : List Device)
    (volEnv : Int → Option String → Option SpotifyException)
    (v delta : Int) (d : Option String) :
    ((set_volume volEnv v d).2.all volPayloadOk = true) ∧
    ((increase_volume devices volEnv delta d).2.all volPayloadOk = true) ∧
    ((decrease_volume devices volEnv delta d).2.all volPayloadOk = true) := by
  have hs : ∀ w : Int, ((set_volume volEnv w d).2.all volPayloadOk = true) := by
    intro w
    rw [set_volume_trace]
    simp only [List.all_cons, List.all_nil, Bool.and_true, volPayloadOk,
      Bool.and_eq_true, decide_eq_true_eq]
    omega
  have hi : ∀ dl : Int, ((increase_volume devices volEnv dl d).2.all volPayloadOk = true) := by
    intro dl
    cases hc : get_volume devices d with
    | error e => simp [increase_volume, hc]
    | ok c => rw [increase_volume_eq devices volEnv dl d c hc]; exact hs _
  exact ⟨hs v, hi delta, hi (-delta)⟩

/-- C2 (counterexample): `play` on a 404 "no active device" fault raises a
`ConnectionError` instead of swallowing the fault and returning normally. -/
theorem play_no_device_raises_connection_error :
    (play (some ⟨404, "Not Found"⟩) none).1 = Except.error (Err.connection noDevMsg) :=
  rfl

/-- C2 (amended): for each transport operation, the "no active device" status
404 is translated to a local `ConnectionError(noDevMsg)` (raised, not
swallowed), and every fault whose status is neither 404 nor 403 is re-raised
unchanged. -/
theorem transport_fault_translation (se : SpotifyException)
    (pr sr : Option SpotifyException) (progress : Int) (d : Option String) :
    (se.http_status = 404 →
      (play (some se) d).1 = Except.error (Err.connection noDevMsg) ∧
      (pause (some se) d).1 = Except.error (Err.connection noDevMsg) ∧
      (switch_play_pause (some se) pr d).1 = Except.error (Err.connection noDevMsg) ∧
      (next_song (some se) d).1 = Except.error (Err.connection noDevMsg) ∧
      (previous_song (some se) sr 0 progress d).1 = Except.error (Err.connection noDevMsg) ∧
      (restart_song (some se) d).1 = Except.error (Err.connection noDevMsg)) ∧
    (se.http_status ≠ 404 → se.http_status ≠ 403 →
      (play (some se) d).1 = Except.error (Err.spotify se) ∧
      (pause (some se) d).1 = Except.error (Err.spotify se) ∧
      (switch_play_pause (some se) pr d).1 = Except.error (Err.spotify se) ∧
      (next_song (some se) d).1 = Except.error (Err.spotify se) ∧
      (previous_song (some se) sr 0 progress d).1 = Except.error (Err.spotify se) ∧
      (restart_song (some se) d).1 = Except.error (Err.spotify se)) := by
  constructor
  · intro h
    refine ⟨?_, ?_, ?_, ?_, ?_, ?_⟩ <;>
      simp [play, pause, switch_play_pause, next_song, previous_song, restart_song, h]
  · intro h404 h403
    refine ⟨?_, ?_, ?_, ?_, ?_, ?_⟩ <;>
      simp [play, pause, switch_play_pause, next_song, previous_song, restart_song,
        h404, h403]

/-- C2 (witness): the amended claim applied to a 404 fault on `play` and a 500
fault on `next_song`. -/
theorem transport_fault_translation_witness :
    (⟨404, "Not Found"⟩ : SpotifyException).http_status = 404 ∧
    (play (some ⟨404, "Not Found"⟩) none).1 = Except.error (Err.connection noDevMsg) ∧
    (⟨500, "Server Error"⟩ : SpotifyException).http_status ≠ 404 ∧
    (⟨500, "Server Error"⟩ : SpotifyException).http_status ≠ 403 ∧
    (next_song (some ⟨500, "Server Error"⟩) none).1 =
      Except.error (Err.spotify ⟨500, "Server Error"⟩) :=
  ⟨rfl,
   ((transport_fault_translation ⟨404, "Not Found"⟩ none none 0 none).1 rfl).1,
   by decide, by decide,
   (((transport_fault_translation ⟨500, "Server Error"⟩ none none 0 none).2
      (by decide) (by decide)).2.2.2).1⟩

/-- C4: when `start_playback` faults with status 403 and a message without
'Forbidden' (already playing) and the follow-up pause succeeds,
`switch_play_pause` issues exactly one pause call and surfaces no error. -/
theorem switch_play_pause_conflict_pauses (se : SpotifyException) (d : Option String)
    (h403 : se.http_status = 403) (hmsg : strContains se.msg "Forbidden" = false) :
    switch_play_pause (some se) none d =
      (Except.ok (), [Call.startPlayback d, Call.pausePlayback d]) ∧
    (switch_play_pause (some se) none d).2.countP isPauseCall = 1 := by
  have key : switch_play_pause (some se) none d =
      (Except.ok (), [Call.startPlayback d, Call.pausePlayback d]) := by
    simp [switch_play_pause, h403, hmsg]
  refine ⟨key, ?_⟩
  rw [key]
  rfl

/-- C4 (witness): a concrete 403 "Restriction violated" fault with no device
argument. -/
theorem switch_play_pause_conflict_pauses_witness :
    (⟨403, "Player command failed: Restriction violated"⟩ : SpotifyException).http_status
      = 403 ∧
    strContains "Player command failed: Restriction violated" "Forbidden" = false ∧
    switch_play_pause (some ⟨403, "Player command failed: Restriction violated"⟩)
        none none =
      (Except.ok (), [Call.startPlayback none, Call.pausePlayback none]) :=
  ⟨rfl, rfl,
   (switch_play_pause_conflict_pauses
     ⟨403, "Player command failed: Restriction violated"⟩ none rfl rfl).1⟩

/-- C5: when `previous_track` (with `restart_time = 0`) faults with status 403
and a message without 'Forbidden' (no previous track) and the fallback seek
succeeds, `previous_song` issues a seek-to-position-zero call and propagates
no error. -/
theorem previous_song_no_previous_seeks_zero (se : SpotifyException)
    (progress : Int) (d : Option String)
    (h403 : se.http_status = 403) (hmsg : strContains se.msg "Forbidden" = false) :
    previous_song (some se) none 0 progress d =
      (Except.ok (), [Call.previousTrack d, Call.seekTrack 0 d]) := by
  simp [previous_song, restart_song, h403, hmsg]

/-- C5 (witness): a concrete 403 "Restriction violated" fault mid-song. -/
theorem previous_song_no_previous_seeks_zero_witness :
    (⟨403, "Player command failed: Restriction violated"⟩ : SpotifyException).http_status
      = 403 ∧
    strContains "Player command failed: Restriction violated" "Forbidden" = false ∧
    previous_song (some ⟨403, "Player command failed: Restriction violated"⟩)
        none 0 5000 none =
      (Except.ok (), [Call.previousTrack none, Call.seekTrack 0 none]) :=
  ⟨rfl, rfl,
   previous_song_no_previous_seeks_zero
     ⟨403, "Player command failed: Restriction violated"⟩ 5000 none rfl rfl⟩

/-- C6: for every value outside `{'track', 'context', 'off'}`,
`set_repeat_state` fails with the local validation error (Python `TypeError`,
the spec's InvalidArgument) and issues no remote call, identically for every
remote environment — hence identically on every repeated call. -/
theorem set_repeat_state_invalid_rejected (r : String)
    (hr : r ∉ (["track", "context", "off"] : List String))
    (repEnv : Option SpotifyException) (d : Option String) :
    set_repeat_state repEnv r d =
      (Except.error (Err.typeError "repeat_state must be 'track', 'context' or 'off'."),
        []) := by
  simp only [set_repeat_state]
  rw [if_pos hr]

/-- C6 (witness): the invalid value `"shuffle"`. -/
theorem set_repeat_state_invalid_rejected_witness :
    "shuffle" ∉ (["track", "context", "off"] : List String) ∧
    set_repeat_state none "shuffle" none =
      (Except.error (Err.typeError "repeat_state must be 'track', 'context' or 'off'."),
        []) :=
  ⟨by decide, set_repeat_state_invalid_rejected "shuffle" (by decide) none none⟩

theorem foldl_artist_names (l : List Artist) (init : String) (h : l ≠ []) :
    l.foldl (fun acc artist => acc ++ artist.name ++ ", ") init =
      init ++ joinCommaSpace (l.map Artist.name) ++ ", " := by
  induction l generalizing init with
  | nil => exact absurd rfl h
  | cons a rest ih =>
    cases rest with
    | nil => simp [joinCommaSpace]
    | cons b rest2 =>
      rw [List.foldl_cons, ih _ (by simp)]
      simp [joinCommaSpace, String.append_assoc]

theorem pyDropLast2_append_comma (s : String) : pyDropLast2 (s ++ ", ") = s := by
  show String.mk ((s ++ ", ").data.dropLast.dropLast) = s
  rw [String.data_append]
  have h2 : s.data ++ ", ".data = (s.data ++ [',']) ++ [' '] := by
    show s.data ++ [',', ' '] = (s.data ++ [',']) ++ [' ']
    simp [List.append_assoc]
  rw [h2, List.dropLast_concat, List.dropLast_concat]

/-- C8: for a currently-playing track with a non-empty artist list, the string
returned by `get_current_song_artist` is all the artist names, in order,
joined by `", "` with no trailing separator. -/
theorem current_song_artist_join (artists : List Artist) (uri : String)
    (h : artists ≠ []) :
    get_current_song_artist (some ⟨artists, uri⟩) =
      Except.ok (joinCommaSpace (artists.map Artist.name)) := by
  simp only [get_current_song_artist, get_current_song_info, Except.map]
  rw [foldl_artist_names artists "" h, String.empty_append, pyDropLast2_append_comma]

/-- C8 (witness): two artists "Mark" and "Lea" yield `"Mark, Lea"`. -/
theorem current_song_artist_join_witness :
    ([⟨"Mark"⟩, ⟨"Lea"⟩] : List Artist) ≠ [] ∧
    get_current_song_artist (some ⟨[⟨"Mark"⟩, ⟨"Lea"⟩], "spotify:track:1"⟩) =
      Except.ok (joinCommaSpace ["Mark", "Lea"]) :=
  ⟨by decide, current_song_artist_join [⟨"Mark"⟩, ⟨"Lea"⟩] "spotify:track:1" (by decide)⟩

theorem gather_calls_artist_only
    (artistTop : String → Except SpotifyException (List TrackItem))
    (artists : List ArtistItem) :
    ((gatherTopArtistTracks artistTop artists).2.all isArtistTopCall) = true := by
  induction artists with
  | nil => rfl
  | cons a rest ih =>
    simp only [gatherTopArtistTracks]
    cases ha : artistTop a.uri with
    | error se => rfl
    | ok tracks =>
      cases hr : (gatherTopArtistTracks artistTop rest).1 <;>
        simp_all [isArtistTopCall]

theorem no_pause_of_artist_calls (l : List Call) (h : l.all isArtistTopCall = true) :
    l.countP isPauseCall = 0 := by
  rw [List.countP_eq_zero]
  intro c hc
  have hc2 := List.all_eq_true.mp h c hc
  cases c <;> simp_all [isArtistTopCall, isPauseCall]

theorem gather_ok (artistTop : String → Except SpotifyException (List TrackItem))
    (f : ArtistItem → List TrackItem) (artists : List ArtistItem)
    (hf : ∀ a ∈ artists, artistTop a.uri = Except.ok (f a)) :
    gatherTopArtistTracks artistTop artists =
      (Except.ok ((artists.map fun a => (f a).map TrackItem.uri).flatten),
       artists.map fun a => Call.artistTopTracks a.uri) := by
  induction artists with
  | nil => rfl
  | cons a rest ih =>
    have ha := hf a (List.mem_cons_self a rest)
    have ihr := ih (fun x hx => hf x (List.mem_cons_of_mem a hx))
    simp only [gatherTopArtistTracks, ha, ihr]
    simp

theorem set_shuffle_state_trace (e : Option SpotifyException) (b : Bool)
    (d : Option String) : (set_shuffle_state e b d).2 = [Call.shuffle b d] := by
  cases e with
  | none => rfl
  | some se =>
    simp only [set_shuffle_state]
    split <;> rfl

theorem countP_pause_play_top_tracks (env : RadioEnv) (limit : Int)
    (d : Option String) : (play_top_tracks env limit d).2.countP isPauseCall = 0 := by
  simp only [play_top_tracks]
  cases ht : env.topTracks with
  | error se => rfl
  | ok items => cases hp : env.playRes <;> rfl

theorem countP_pause_play_recently_played (env : RadioEnv) (limit : Int)
    (d : Option String) :
    (play_recently_played env limit d).2.countP isPauseCall = 0 := by
  simp only [play_recently_played]
  cases ht : env.recentlyPlayed with
  | error se => rfl
  | ok items => cases hp : env.playRes <;> rfl

theorem countP_pause_play_top_artists (env : RadioEnv) (limit : Int)
    (d : Option String) : (play_top_artists env limit d).2.countP isPauseCall = 0 := by
  simp only [play_top_artists]
  cases ha : env.topArtists with
  | error se => rfl
  | ok artists =>
    have hg : (gatherTopArtistTracks env.artistTop artists).2.countP isPauseCall = 0 :=
      no_pause_of_artist_calls _ (gather_calls_artist_only env.artistTop artists)
    cases hr : (gatherTopArtistTracks env.artistTop artists).1 with
    | error se => simp [hr, List.countP_cons, hg, isPauseCall]
    | ok uris =>
      cases hp : env.playRes with
      | some se => simp [hr, hp, List.countP_append, List.countP_cons, hg, isPauseCall]
      | none =>
        simp only [hr, hp]
        split <;>
          simp [List.countP_append, List.countP_cons, hg, isPauseCall,
            set_shuffle_state_trace]

/-- A concrete remote environment for the radio operations: one recently played
track, one top track, one top artist with one top track; every remote call
succeeds. -/
def radioEnvEx : RadioEnv where
  recentlyPlayed := .ok [⟨⟨"spotify:track:r1"⟩⟩]
  topTracks := .ok [⟨"spotify:track:t1"⟩]
  topArtists := .ok [⟨"spotify:artist:a1"⟩]
  artistTop := fun _ => .ok [⟨"spotify:track:x1"⟩]
  playRes := none
  shuffleRes := none

/-- C9 (counterexample): on a fully-successful environment the radio operations
issue no pause call at all, and `play_top_tracks` / `play_recently_played`
issue no shuffle call either — contradicting the claimed
pause / gather / play / set-shuffle sequence. -/
theorem play_top_tracks_no_pause_no_shuffle :
    (play_top_tracks radioEnvEx 20 none).2 =
      [Call.currentUserTopTracks 20,
       Call.startPlaybackUris ["spotify:track:t1"] none] ∧
    (play_top_tracks radioEnvEx 20 none).2.countP isPauseCall = 0 ∧
    (play_top_tracks radioEnvEx 20 none).2.countP isShuffleCall = 0 ∧
    (play_recently_played radioEnvEx 50 none).2.countP isPauseCall = 0 ∧
    (play_recently_played radioEnvEx 50 none).2.countP isShuffleCall = 0 ∧
    (play_top_artists radioEnvEx 5 none).2.countP isPauseCall = 0 :=
  ⟨rfl, rfl, rfl, rfl, rfl, rfl⟩

/-- C9 (amended): each radio operation gathers its candidate track URIs via its
read call(s) and issues exactly one play call carrying the full gathered list;
no pause call is ever issued; `play_top_artists` alone follows the play call
with one set-shuffle(true) call. -/
theorem radio_ops_gather_play_once (env : RadioEnv) (limit : Int) (d : Option String)
    (items : List TrackItem) (hist : List PlayHistoryItem)
    (artists : List ArtistItem) (f : ArtistItem → List TrackItem) :
    (env.topTracks = Except.ok items → env.playRes = none →
      play_top_tracks env limit d =
        (Except.ok (), [Call.currentUserTopTracks limit,
          Call.startPlaybackUris (items.map TrackItem.uri) d])) ∧
    (env.recentlyPlayed = Except.ok hist → env.playRes = none →
      play_recently_played env limit d =
        (Except.ok (), [Call.currentUserRecentlyPlayed limit,
          Call.startPlaybackUris (hist.map fun x => x.track.uri) d])) ∧
    (env.topArtists = Except.ok artists →
      (∀ a ∈ artists, env.artistTop a.uri = Except.ok (f a)) →
      env.playRes = none → env.shuffleRes = none →
      play_top_artists env limit d =
        (Except.ok (), Call.currentUserTopArtists limit ::
          (artists.map fun a => Call.artistTopTracks a.uri)
          ++ [Call.startPlaybackUris
                ((artists.map fun a => (f a).map TrackItem.uri).flatten) d]
          ++ [Call.shuffle true none])) ∧
    ((play_top_tracks env limit d).2.countP isPauseCall = 0 ∧
     (play_recently_played env limit d).2.countP isPauseCall = 0 ∧
     (play_top_artists env limit d).2.countP isPauseCall = 0) := by
  refine ⟨fun ht hp => ?_, fun hh hp => ?_, fun ha hf hp hsh => ?_,
    countP_pause_play_top_tracks env limit d,
    countP_pause_play_recently_played env limit d,
    countP_pause_play_top_artists env limit d⟩
  · simp [play_top_tracks, ht, hp]
  · simp [play_recently_played, hh, hp]
  · have hg := gather_ok env.artistTop f artists hf
    simp only [play_top_artists, ha, hg, hp, hsh]
    simp [set_shuffle_state]

/-- C9 (witness): the amended claim applied to the concrete environment. -/
theorem radio_ops_gather_play_once_witness :
    radioEnvEx.topTracks = Except.ok [⟨"spotify:track:t1"⟩] ∧
    radioEnvEx.playRes = none ∧
    play_top_tracks radioEnvEx 20 none =
      (Except.ok (), [Call.currentUserTopTracks 20,
        Call.startPlaybackUris
          (([⟨"spotify:track:t1"⟩] : List TrackItem).map TrackItem.uri) none]) ∧
    play_top_artists radioEnvEx 5 none =
      (Except.ok (), Call.currentUserTopArtists 5 ::
        (([⟨"spotify:artist:a1"⟩] : List ArtistItem).map
          fun a => Call.artistTopTracks a.uri)
        ++ [Call.startPlaybackUris
              ((([⟨"spotify:artist:a1"⟩] : List ArtistItem).map
                fun _ => ([⟨"spotify:track:x1"⟩] : List TrackItem).map
                  TrackItem.uri).flatten) none]
        ++ [Call.shuffle true none]) :=
  ⟨rfl, rfl,
   (radio_ops_gather_play_once radioEnvEx 20 none [⟨"spotify:track:t1"⟩] [] []
      (fun _ => [])).1 rfl rfl,
   (radio_ops_gather_play_once radioEnvEx 5 none [] [] [⟨"spotify:artist:a1"⟩]
      (fun _ => [⟨"spotify:track:x1"⟩])).2.2.1 rfl (fun a _ => rfl) rfl rfl⟩

theorem nextRepeatOf_mem (s : String) :
    nextRepeatOf s ∈ (["track", "context", "off"] : List String) := by
  unfold nextRepeatOf
  split
  · simp
  · split <;> simp

/-- C10: `next_repeat_state` applies the cyclic successor on repeat states:
`'track' ↦ 'context'`, `'context' ↦ 'off'`, everything else (including
`'off'`) `↦ 'track'`; three applications restore any state in the
enumeration, and the operation issues one set-repeat call carrying the
successor of the current state. -/
theorem next_repeat_state_cyclic :
    nextRepeatOf "track" = "context" ∧ nextRepeatOf "context" = "off" ∧
    (∀ s : String, s ≠ "track" → s ≠ "context" → nextRepeatOf s = "track") ∧
    (∀ s ∈ (["track", "context", "off"] : List String),
      nextRepeatOf (nextRepeatOf (nextRepeatOf s)) = s) ∧
    (∀ (current : String) (d : Option String),
      next_repeat_state (some current) none d =
        (Except.ok (), [Call.setRepeat (nextRepeatOf current) d])) := by
  refine ⟨rfl, rfl, ?_, ?_, ?_⟩
  · intro s h1 h2
    simp [nextRepeatOf, h1, h2]
  · intro s hs
    simp only [List.mem_cons, List.not_mem_nil, or_false] at hs
    rcases hs with rfl | rfl | rfl <;> rfl
  · intro current d
    simp only [next_repeat_state, get_repeat_state, set_repeat_state,
      if_neg (not_not_intro (nextRepeatOf_mem current))]

/-- C10 (witness): the successor and the three-step cycle evaluated at
concrete states. -/
theorem next_repeat_state_cyclic_witness :
    ("off" : String) ≠ "track" ∧ ("off" : String) ≠ "context" ∧
    nextRepeatOf "off" = "track" ∧
    "off" ∈ (["track", "context", "off"] : List String) ∧
    nextRepeatOf (nextRepeatOf (nextRepeatOf "off")) = "off" ∧
    next_repeat_state (some "off") none none =
      (Except.ok (), [Call.setRepeat (nextRepeatOf "off") none]) :=
  ⟨by decide, by decide,
   next_repeat_state_cyclic.2.2.1 "off" (by decide) (by decide),
   by simp,
   next_repeat_state_cyclic.2.2.2.1 "off" (by simp),
   next_repeat_state_cyclic.2.2.2.2 "off" none⟩

end SpotifyManager
